import Mathlib

/-!
Shallow embedding of src/intelligence/model_pipeline.py: the multi-provider
routing and fallback engine (TaskType, ModelResponse, the four provider
adapters, and the MultiModelPipeline orchestrator), together with theorems
settling the specification claims about it.

Modelling conventions:
* one outbound HTTP exchange is abstracted by NetOutcome: a 200 reply with
  its parsed payload, a non-200 status with its error text, or a raised
  transport or payload-parsing fault;
* a Python exception is modelled by the error constructor of Except;
* wall-clock durations (time.time arithmetic) are abstracted to 0;
* floating-point confidence scores are modelled as exact rationals.
-/

/-- TaskType enumeration of task types for model routing
(model_pipeline.py lines 15-23). -/
inductive TaskType where
  | CODE_ANALYSIS
  | CODE_GENERATION
  | PROBLEM_SOLVING
  | SYSTEM_ADMIN
  | WEB_AUTOMATION
  | GENERAL
  | FAST_QUERY
deriving DecidableEq, BEq

/-- ModelResponse standardised model response structure
(model_pipeline.py lines 25-35). The execution_time field abstracts the
wall-clock duration as 0; confidence is an exact rational. -/
structure ModelResponse where
  content : String
  model_used : String
  provider : String
  execution_time : Nat
  tokens_used : Nat
  confidence : ℚ
  success : Bool
  error : Option String
deriving DecidableEq

/-- NetOutcome abstracts one outbound HTTP POST exchange of an adapter:
a 200 reply carrying the parsed content and token count, a non-200 status
with its error text, or a raised fault (network error, timeout, or a
malformed payload that fails to parse). -/
inductive NetOutcome where
  | ok (content : String) (tokens : Nat)
  | status (code : Nat) (errorText : String)
  | raised (msg : String)

/-- GroqConfig is the per-provider configuration record consumed by
GroqProvider (endpoint, credential, category-to-model identifiers). -/
structure GroqConfig where
  api_key : String
  endpoint : String
  models_fast : String
  models_reasoning : String
  models_code : String

/-- MistralConfig is the configuration record of MistralCodestralProvider. -/
structure MistralConfig where
  api_key : String
  endpoint : String
  model : String
  max_tokens : Nat

/-- OpenRouterConfig is the configuration record of OpenRouterProvider. -/
structure OpenRouterConfig where
  api_key : String
  endpoint : String
  models_deepseek : String
  models_kimi_k2 : String

/-- HuggingFaceConfig is the configuration record of HuggingFaceProvider. -/
structure HuggingFaceConfig where
  api_key : String
  endpoint : String
  models_browser_use : String
  models_embeddings : String

/-- Model selection of GroqProvider.generate_response
(model_pipeline.py lines 108-114). -/
def groq_select_model (cfg : GroqConfig) (task_type : TaskType) : String :=
  if task_type = TaskType.FAST_QUERY then cfg.models_fast
  else if task_type = TaskType.PROBLEM_SOLVING then cfg.models_reasoning
  else cfg.models_code

/-- GroqProvider.generate_response (model_pipeline.py lines 104-174),
as a function of the outcome of its single HTTP exchange. The second
component counts backend calls attempted. -/
def groq_generate_response (cfg : GroqConfig) (_prompt : String)
    (task_type : TaskType) (net : NetOutcome) : ModelResponse × Nat :=
  let model := groq_select_model cfg task_type
  match net with
  | NetOutcome.ok content tokens =>
      ({ content := content, model_used := model, provider := "groq",
         execution_time := 0, tokens_used := tokens, confidence := 9/10,
         success := true, error := none }, 1)
  | NetOutcome.status code errorText =>
      ({ content := "", model_used := model, provider := "groq",
         execution_time := 0, tokens_used := 0, confidence := 0,
         success := false,
         error := some ("Groq API error " ++ toString code ++ ": " ++ errorText) }, 1)
  | NetOutcome.raised msg =>
      ({ content := "", model_used := model, provider := "groq",
         execution_time := 0, tokens_used := 0, confidence := 0,
         success := false, error := some msg }, 1)

/-- MistralCodestralProvider.generate_response (model_pipeline.py lines
209-301). Task types other than CODE_ANALYSIS and CODE_GENERATION are
rejected up front with no backend call (lines 213-224). -/
def mistral_generate_response (cfg : MistralConfig) (_prompt : String)
    (task_type : TaskType) (net : NetOutcome) : ModelResponse × Nat :=
  if task_type = TaskType.CODE_ANALYSIS ∨ task_type = TaskType.CODE_GENERATION then
    match net with
    | NetOutcome.ok content tokens =>
        ({ content := content, model_used := cfg.model,
           provider := "mistral_codestral", execution_time := 0,
           tokens_used := tokens, confidence := 19/20,
           success := true, error := none }, 1)
    | NetOutcome.status code errorText =>
        ({ content := "", model_used := cfg.model,
           provider := "mistral_codestral", execution_time := 0,
           tokens_used := 0, confidence := 0, success := false,
           error := some ("Codestral API error " ++ toString code ++ ": " ++ errorText) }, 1)
    | NetOutcome.raised msg =>
        ({ content := "", model_used := cfg.model,
           provider := "mistral_codestral", execution_time := 0,
           tokens_used := 0, confidence := 0, success := false,
           error := some msg }, 1)
  else
    ({ content := "", model_used := cfg.model,
       provider := "mistral_codestral", execution_time := 0,
       tokens_used := 0, confidence := 0, success := false,
       error := some "Task type not supported by Codestral" }, 0)

/-- Model selection of OpenRouterProvider.generate_response
(model_pipeline.py lines 341-347). -/
def openrouter_select_model (cfg : OpenRouterConfig) (task_type : TaskType) : String :=
  if task_type = TaskType.PROBLEM_SOLVING then cfg.models_kimi_k2
  else if task_type = TaskType.CODE_ANALYSIS ∨ task_type = TaskType.CODE_GENERATION then
    cfg.models_deepseek
  else cfg.models_deepseek

/-- OpenRouterProvider.generate_response (model_pipeline.py lines 337-409). -/
def openrouter_generate_response (cfg : OpenRouterConfig) (_prompt : String)
    (task_type : TaskType) (net : NetOutcome) : ModelResponse × Nat :=
  let model := openrouter_select_model cfg task_type
  match net with
  | NetOutcome.ok content tokens =>
      ({ content := content, model_used := model, provider := "openrouter",
         execution_time := 0, tokens_used := tokens, confidence := 17/20,
         success := true, error := none }, 1)
  | NetOutcome.status code errorText =>
      ({ content := "", model_used := model, provider := "openrouter",
         execution_time := 0, tokens_used := 0, confidence := 0,
         success := false,
         error := some ("OpenRouter API error " ++ toString code ++ ": " ++ errorText) }, 1)
  | NetOutcome.raised msg =>
      ({ content := "", model_used := model, provider := "openrouter",
         execution_time := 0, tokens_used := 0, confidence := 0,
         success := false, error := some msg }, 1)

/-- HuggingFaceProvider.generate_response (model_pipeline.py lines 443-488).
Task types other than WEB_AUTOMATION are rejected with no backend call
(lines 447-458); the supported path returns a fixed placeholder with no
backend call either (lines 460-473), so the call count is always 0 and the
except branch of the source is unreachable. -/
def huggingface_generate_response (cfg : HuggingFaceConfig) (_prompt : String)
    (task_type : TaskType) : ModelResponse × Nat :=
  if task_type ≠ TaskType.WEB_AUTOMATION then
    ({ content := "", model_used := "N/A", provider := "huggingface",
       execution_time := 0, tokens_used := 0, confidence := 0,
       success := false,
       error := some "Task type not supported by HuggingFace provider" }, 0)
  else
    ({ content := "Web automation task queued for processing",
       model_used := cfg.models_browser_use, provider := "huggingface",
       execution_time := 0, tokens_used := 0, confidence := 7/10,
       success := true, error := none }, 0)

/-- Provider models one ModelProvider instance (model_pipeline.py lines
37-70): its mutable state (the sticky available flag set by initialise, and
the aiohttp session handle as a pair of booleans: whether self.session is
set and whether the underlying transport is still open) together with two
behaviour oracles. testConnBehavior is the outcome of the test_connection
body of the concrete subclass (an Except.error models a raised exception;
all four concrete subclasses catch internally and only ever return a
boolean). genBehavior is the outcome of the generate_response body of the
concrete subclass for a given prompt and task type, with Except.error again
modelling a raised exception. -/
structure Provider where
  available : Bool
  hasSession : Bool
  sessionOpen : Bool
  testConnBehavior : Except String Bool
  genBehavior : String → TaskType → Except String ModelResponse

/-- ModelProvider.test_connection as invoked on a concrete subclass
(model_pipeline.py lines 75-102, 179-207, 306-335, 414-441): the body of
every concrete variant reads configuration and the session but assigns no
instance field, so the provider state is returned unchanged alongside the
probe outcome. -/
def Provider.test_connection (p : Provider) : Except String Bool × Provider :=
  (p.testConnBehavior, p)

/-- ModelProvider.initialise (model_pipeline.py lines 47-57): allocates the
session, runs the connectivity probe and stores its result in the sticky
available flag; a raised probe fault is caught and False is returned with
the available flag left unwritten. -/
def Provider.initialise (p : Provider) : Bool × Provider :=
  let p1 : Provider := { p with hasSession := true, sessionOpen := true }
  match p1.test_connection with
  | (Except.ok b, p2) => (b, { p2 with available := b })
  | (Except.error _, p2) => (false, p2)

/-- ModelProvider.cleanup (model_pipeline.py lines 67-70): closes the
session if one was created. Closing an aiohttp ClientSession is documented
idempotent, so a close on an already-closed session is a no-op and never
faults; the second component records whether this call actually released
the transport handle (1) or was a no-op (0). -/
def Provider.cleanup (p : Provider) : Provider × Nat :=
  if p.hasSession then
    if p.sessionOpen then ({ p with sessionOpen := false }, 1) else (p, 0)
  else (p, 0)

/-- MultiModelPipeline state (model_pipeline.py lines 490-499): the
registry of providers, keyed by name in registration order. -/
structure MultiModelPipeline where
  providers : List (String × Provider)

/-- MultiModelPipeline._create_routing_strategy (model_pipeline.py lines
501-511): the static routing table from task type to ordered provider
names. -/
def MultiModelPipeline.create_routing_strategy : List (TaskType × List String) :=
  [(TaskType.CODE_ANALYSIS, ["mistral_codestral", "groq", "openrouter"]),
   (TaskType.CODE_GENERATION, ["mistral_codestral", "groq", "openrouter"]),
   (TaskType.PROBLEM_SOLVING, ["openrouter", "groq"]),
   (TaskType.SYSTEM_ADMIN, ["groq", "openrouter"]),
   (TaskType.WEB_AUTOMATION, ["huggingface", "groq"]),
   (TaskType.FAST_QUERY, ["groq", "openrouter"]),
   (TaskType.GENERAL, ["groq", "openrouter"])]

/-- Routing order resolution in MultiModelPipeline.generate_response
(model_pipeline.py line 555): self.routing_strategy.get(task_type,
["groq", "openrouter"]). -/
def routingOrder (task_type : TaskType) : List String :=
  (MultiModelPipeline.create_routing_strategy.lookup task_type).getD ["groq", "openrouter"]

/-- Synthetic failure response returned when the routing order is exhausted
(model_pipeline.py lines 578-587). -/
def exhaustedResponse : ModelResponse :=
  { content := "", model_used := "none", provider := "none",
    execution_time := 0, tokens_used := 0, confidence := 0,
    success := false, error := some "All providers failed or unavailable" }

/-- Dispatch loop of MultiModelPipeline.generate_response
(model_pipeline.py lines 557-587) over an explicit list of routing names:
skip names that are not registered or whose sticky available flag is
false; otherwise invoke the provider; return the first successful response
immediately; treat a returned failure or a raised exception as failure and
continue; return the synthetic failure response on exhaustion. The second
component is instrumentation recording, in order, the names of the
providers whose generate_response was actually invoked. -/
def dispatchRun (provs : List (String × Provider)) (prompt : String)
    (task_type : TaskType) : List String → ModelResponse × List String
  | [] => (exhaustedResponse, [])
  | n :: rest =>
    match provs.lookup n with
    | none => dispatchRun provs prompt task_type rest
    | some pr =>
      if pr.available then
        match pr.genBehavior prompt task_type with
        | Except.ok resp =>
          if resp.success then (resp, [n])
          else
            let r := dispatchRun provs prompt task_type rest
            (r.1, n :: r.2)
        | Except.error _ =>
          let r := dispatchRun provs prompt task_type rest
          (r.1, n :: r.2)
      else dispatchRun provs prompt task_type rest

/-- MultiModelPipeline.generate_response (model_pipeline.py lines 551-587):
resolve the routing order for the task type and run the dispatch loop. -/
def MultiModelPipeline.generate_response (pl : MultiModelPipeline)
    (prompt : String) (task_type : TaskType) : ModelResponse × List String :=
  dispatchRun pl.providers prompt task_type (routingOrder task_type)

/-- Candidate test used by the dispatch loop (model_pipeline.py line 558):
the name is registered and the sticky available flag of its provider is
true. -/
def candB (provs : List (String × Provider)) (n : String) : Bool :=
  match provs.lookup n with
  | some pr => pr.available
  | none => false

/-- Success test for one candidate: invoking the provider registered under
the name returns (rather than raises) a response with success true. -/
def succB (provs : List (String × Provider)) (prompt : String)
    (task_type : TaskType) (n : String) : Bool :=
  match provs.lookup n with
  | some pr =>
    match pr.genBehavior prompt task_type with
    | Except.ok r => r.success
    | Except.error _ => false
  | none => false

/-- Effective dispatch order for a task type: the routing order filtered to
names that are registered with sticky availability true, order preserved. -/
def effectiveOrder (pl : MultiModelPipeline) (task_type : TaskType) : List String :=
  (routingOrder task_type).filter (candB pl.providers)

/-- Boolean test for an Except value carrying a result rather than a raised
fault. -/
def exOk {α : Type} : Except String α → Bool
  | Except.ok _ => true
  | Except.error _ => false

/-- Boolean probe result of a provider: true when its test_connection body
returns true (a raised probe fault counts as false here). -/
def probeTrue (p : Provider) : Bool :=
  match p.testConnBehavior with
  | Except.ok b => b
  | Except.error _ => false

/-- Aggregate returned by MultiModelPipeline.health_check
(model_pipeline.py lines 591-595). -/
structure HealthStatus where
  total_providers : Nat
  available_providers : Nat
  providers : List (String × Bool × Bool)
deriving DecidableEq

/-- Loop of MultiModelPipeline.health_check (model_pipeline.py lines
597-604): for each provider in registry order, probe it with
test_connection only if its sticky available flag is true, record the pair
(available, healthy), and count healthy providers. The loop body contains
no exception handling, so a raised probe fault aborts the whole call and
propagates (first component Except.error). The second component records
the names actually probed; the third is the threaded provider registry. -/
def healthCheckAux : List (String × Provider) →
    Except String (Nat × List (String × Bool × Bool)) × List String × List (String × Provider)
  | [] => (Except.ok (0, []), [], [])
  | (n, pr) :: rest =>
    if pr.available then
      match Provider.test_connection pr with
      | (Except.error e, pr2) => (Except.error e, [n], (n, pr2) :: rest)
      | (Except.ok hlt, pr2) =>
        let r := healthCheckAux rest
        ((match r.1 with
          | Except.error e => Except.error e
          | Except.ok (c, es) =>
            Except.ok ((if hlt then c + 1 else c), (n, pr.available, hlt) :: es)),
         n :: r.2.1, (n, pr2) :: r.2.2)
    else
      let r := healthCheckAux rest
      ((match r.1 with
        | Except.error e => Except.error e
        | Except.ok (c, es) => Except.ok (c, (n, pr.available, false) :: es)),
       r.2.1, (n, pr) :: r.2.2)

/-- MultiModelPipeline.health_check (model_pipeline.py lines 589-606).
Returns the aggregate (or a propagated probe fault), the instrumented list
of probed provider names, and the pipeline state after the call. -/
def MultiModelPipeline.health_check (pl : MultiModelPipeline) :
    Except String HealthStatus × List String × MultiModelPipeline :=
  match healthCheckAux pl.providers with
  | (Except.ok (c, es), probed, ps) =>
    (Except.ok { total_providers := pl.providers.length,
                 available_providers := c, providers := es }, probed, ⟨ps⟩)
  | (Except.error e, probed, ps) => (Except.error e, probed, ⟨ps⟩)

/-- Loop of MultiModelPipeline.check_api_connectivity (model_pipeline.py
lines 612-623): every provider is probed inside a try block, so a raised
probe fault is converted to the entry (name, false, some message) and the
loop continues. The second component is the threaded provider registry. -/
def checkConnAux : List (String × Provider) →
    List (String × Bool × Option String) × List (String × Provider)
  | [] => ([], [])
  | (n, pr) :: rest =>
    let tc := Provider.test_connection pr
    let e := match tc.1 with
      | Except.ok c => (n, c, (none : Option String))
      | Except.error msg => (n, false, some msg)
    (e :: (checkConnAux rest).1, (n, tc.2) :: (checkConnAux rest).2)

/-- MultiModelPipeline.check_api_connectivity (model_pipeline.py lines
608-625). -/
def MultiModelPipeline.check_api_connectivity (pl : MultiModelPipeline) :
    List (String × Bool × Option String) × MultiModelPipeline :=
  ((checkConnAux pl.providers).1, ⟨(checkConnAux pl.providers).2⟩)

/-- MultiModelPipeline.shutdown (model_pipeline.py lines 627-632): calls
cleanup on every registered provider. The second component records, per
provider in registry order, whether that call released the transport
handle. -/
def MultiModelPipeline.shutdown (pl : MultiModelPipeline) :
    MultiModelPipeline × List Nat :=
  (⟨pl.providers.map (fun x => (x.1, (Provider.cleanup x.2).1))⟩,
   pl.providers.map (fun x => (Provider.cleanup x.2).2))

/-- Well-formedness invariant of a response (spec section 3): a failure
carries empty content and a non-null error; a success carries no error. -/
def wfResponse (r : ModelResponse) : Prop :=
  (r.success = false → r.content = "" ∧ r.error ≠ none) ∧
  (r.success = true → r.error = none)

/-- Concrete successful response used by witness pipelines. -/
def okResp : ModelResponse :=
  { content := "hi", model_used := "m", provider := "groq",
    execution_time := 0, tokens_used := 3, confidence := 9/10,
    success := true, error := none }

/-- Concrete failed response used by witness pipelines. -/
def failResp : ModelResponse :=
  { content := "", model_used := "m", provider := "groq",
    execution_time := 0, tokens_used := 0, confidence := 0,
    success := false, error := some "bad" }

/-- Provider that always answers successfully. -/
def okProvider : Provider :=
  { available := true, hasSession := true, sessionOpen := true,
    testConnBehavior := Except.ok true,
    genBehavior := fun _ _ => Except.ok okResp }

/-- Provider that always returns a failure response. -/
def failProvider : Provider :=
  { available := true, hasSession := true, sessionOpen := true,
    testConnBehavior := Except.ok true,
    genBehavior := fun _ _ => Except.ok failResp }

/-- Provider whose probe and generation both raise. -/
def raisingProvider : Provider :=
  { available := true, hasSession := true, sessionOpen := true,
    testConnBehavior := Except.error "probe fault",
    genBehavior := fun _ _ => Except.error "gen fault" }

/-- Provider whose sticky available flag is false. -/
def offProvider : Provider :=
  { available := false, hasSession := true, sessionOpen := true,
    testConnBehavior := Except.ok true,
    genBehavior := fun _ _ => Except.ok okResp }

/-- Witness pipeline in which the only registered provider always fails. -/
def plFail : MultiModelPipeline := ⟨[("groq", failProvider)]⟩

/-- Witness pipeline: first candidate fails, second succeeds. -/
def plTwo : MultiModelPipeline := ⟨[("groq", failProvider), ("openrouter", okProvider)]⟩

/-- Witness registry for the fault-containment claim. -/
def provsRaise : List (String × Provider) := [("groq", raisingProvider)]

/-- Witness pipeline with one well-formed successful provider. -/
def plOk : MultiModelPipeline := ⟨[("groq", okProvider)]⟩

/-- Witness pipeline: one healthy available provider and one provider with
sticky availability false. -/
def plHealth : MultiModelPipeline := ⟨[("groq", okProvider), ("openrouter", offProvider)]⟩

/-- Pipeline whose only provider is available but has a raising probe. -/
def plProbeRaise : MultiModelPipeline := ⟨[("groq", raisingProvider)]⟩


/-- Lookup in the provider registry implies membership (the BEq instance of
String is lawful). -/
theorem lookup_mem {l : List (String × Provider)} {n : String} {pr : Provider}
    (h : l.lookup n = some pr) : (n, pr) ∈ l := by
  induction l with
  | nil => simp [List.lookup] at h
  | cons x xs ih =>
    obtain ⟨k, v⟩ := x
    rw [List.lookup] at h
    cases hk : n == k with
    | true =>
      rw [hk] at h
      have hne : n = k := by simpa using hk
      have hv : v = pr := by simpa using h
      subst hne
      subst hv
      exact List.mem_cons_self _ _
    | false =>
      rw [hk] at h
      exact List.mem_cons_of_mem _ (ih h)

/-- Unregistered names are not candidates. -/
theorem candB_none {provs : List (String × Provider)} {n : String}
    (hl : provs.lookup n = none) : candB provs n = false := by
  simp [candB, hl]

/-- Candidate status of a registered name is its sticky available flag. -/
theorem candB_some {provs : List (String × Provider)} {n : String} {pr : Provider}
    (hl : provs.lookup n = some pr) : candB provs n = pr.available := by
  simp [candB, hl]

/-- Success status of a registered name whose invocation returns. -/
theorem succB_ok {provs : List (String × Provider)} {prompt : String}
    {task_type : TaskType} {n : String} {pr : Provider} {r : ModelResponse}
    (hl : provs.lookup n = some pr)
    (hg : pr.genBehavior prompt task_type = Except.ok r) :
    succB provs prompt task_type n = r.success := by
  simp [succB, hl, hg]

/-- Success status of a registered name whose invocation raises. -/
theorem succB_raise {provs : List (String × Provider)} {prompt : String}
    {task_type : TaskType} {n : String} {pr : Provider} {e : String}
    (hl : provs.lookup n = some pr)
    (hg : pr.genBehavior prompt task_type = Except.error e) :
    succB provs prompt task_type n = false := by
  simp [succB, hl, hg]

/-- Dispatch step: an unregistered name is skipped without invocation. -/
theorem dispatchRun_skip_none {provs : List (String × Provider)} {prompt : String}
    {task_type : TaskType} {n : String} {rest : List String}
    (hl : provs.lookup n = none) :
    dispatchRun provs prompt task_type (n :: rest) =
      dispatchRun provs prompt task_type rest := by
  simp [dispatchRun, hl]

/-- Dispatch step: a registered name with sticky availability false is
skipped without invocation. -/
theorem dispatchRun_skip_off {provs : List (String × Provider)} {prompt : String}
    {task_type : TaskType} {n : String} {rest : List String} {pr : Provider}
    (hl : provs.lookup n = some pr) (ha : pr.available = false) :
    dispatchRun provs prompt task_type (n :: rest) =
      dispatchRun provs prompt task_type rest := by
  simp [dispatchRun, hl, ha]

/-- Dispatch step: an invoked candidate that returns a failure response is
recorded and dispatch proceeds with the rest of the order. -/
theorem dispatchRun_fail_resp {provs : List (String × Provider)} {prompt : String}
    {task_type : TaskType} {n : String} {rest : List String} {pr : Provider}
    {resp : ModelResponse}
    (hl : provs.lookup n = some pr) (ha : pr.available = true)
    (hg : pr.genBehavior prompt task_type = Except.ok resp)
    (hs : resp.success = false) :
    dispatchRun provs prompt task_type (n :: rest) =
      ((dispatchRun provs prompt task_type rest).1,
        n :: (dispatchRun provs prompt task_type rest).2) := by
  simp [dispatchRun, hl, ha, hg, hs]

/-- Dispatch step: an invoked candidate that raises is recorded and
dispatch proceeds with the rest of the order. -/
theorem dispatchRun_fail_raise {provs : List (String × Provider)} {prompt : String}
    {task_type : TaskType} {n : String} {rest : List String} {pr : Provider}
    {e : String}
    (hl : provs.lookup n = some pr) (ha : pr.available = true)
    (hg : pr.genBehavior prompt task_type = Except.error e) :
    dispatchRun provs prompt task_type (n :: rest) =
      ((dispatchRun provs prompt task_type rest).1,
        n :: (dispatchRun provs prompt task_type rest).2) := by
  simp [dispatchRun, hl, ha, hg]

/-- Dispatch step: an invoked candidate that returns a successful response
short-circuits the loop. -/
theorem dispatchRun_hit {provs : List (String × Provider)} {prompt : String}
    {task_type : TaskType} {n : String} {rest : List String} {pr : Provider}
    {r : ModelResponse}
    (hl : provs.lookup n = some pr) (ha : pr.available = true)
    (hg : pr.genBehavior prompt task_type = Except.ok r) (hs : r.success = true) :
    dispatchRun provs prompt task_type (n :: rest) = (r, [n]) := by
  simp [dispatchRun, hl, ha, hg, hs]

/-- Dispatch ignores names that the candidate filter removes: running the
loop on any order gives the same outcome as running it on the order
restricted to registered available candidates. -/
theorem dispatchRun_filter (provs : List (String × Provider)) (prompt : String)
    (task_type : TaskType) :
    ∀ l : List String,
      dispatchRun provs prompt task_type l =
        dispatchRun provs prompt task_type (l.filter (candB provs)) := by
  intro l
  induction l with
  | nil => rfl
  | cons n rest ih =>
    cases hl : provs.lookup n with
    | none =>
      rw [dispatchRun_skip_none hl, ih, List.filter_cons, candB_none hl]
      simp
    | some pr =>
      cases ha : pr.available with
      | false =>
        rw [dispatchRun_skip_off hl ha, ih, List.filter_cons, candB_some hl, ha]
        simp
      | true =>
        have hcand : candB provs n = true := by rw [candB_some hl, ha]
        rw [List.filter_cons, hcand]
        simp only [if_true]
        cases hg : pr.genBehavior prompt task_type with
        | error e =>
          rw [dispatchRun_fail_raise hl ha hg, dispatchRun_fail_raise hl ha hg, ih]
        | ok resp =>
          cases hs : resp.success with
          | false =>
            rw [dispatchRun_fail_resp hl ha hg hs,
              dispatchRun_fail_resp hl ha hg hs, ih]
          | true => rw [dispatchRun_hit hl ha hg hs, dispatchRun_hit hl ha hg hs]

/-- Invocation trace of the dispatch loop is always an initial segment of
the candidate-filtered order. -/
theorem dispatchRun_trace_take (provs : List (String × Provider)) (prompt : String)
    (task_type : TaskType) :
    ∀ l : List String, ∃ k,
      (dispatchRun provs prompt task_type l).2 = (l.filter (candB provs)).take k := by
  intro l
  induction l with
  | nil => exact ⟨0, rfl⟩
  | cons n rest ih =>
    obtain ⟨k, hk⟩ := ih
    cases hl : provs.lookup n with
    | none =>
      refine ⟨k, ?_⟩
      rw [dispatchRun_skip_none hl, List.filter_cons, candB_none hl]
      simpa using hk
    | some pr =>
      cases ha : pr.available with
      | false =>
        refine ⟨k, ?_⟩
        rw [dispatchRun_skip_off hl ha, List.filter_cons, candB_some hl, ha]
        simpa using hk
      | true =>
        have hcand : candB provs n = true := by rw [candB_some hl, ha]
        cases hg : pr.genBehavior prompt task_type with
        | error e =>
          refine ⟨k + 1, ?_⟩
          rw [dispatchRun_fail_raise hl ha hg, List.filter_cons, hcand]
          simp [hk]
        | ok resp =>
          cases hs : resp.success with
          | false =>
            refine ⟨k + 1, ?_⟩
            rw [dispatchRun_fail_resp hl ha hg hs, List.filter_cons, hcand]
            simp [hk]
          | true =>
            refine ⟨1, ?_⟩
            rw [dispatchRun_hit hl ha hg hs, List.filter_cons, hcand]
            simp

/-- When no registered available candidate in the order succeeds, the
dispatch loop invokes every candidate in order and ends exhausted. -/
theorem dispatchRun_allfail (provs : List (String × Provider)) (prompt : String)
    (task_type : TaskType) :
    ∀ l : List String,
      (∀ n ∈ l, candB provs n = true → succB provs prompt task_type n = false) →
      dispatchRun provs prompt task_type l = (exhaustedResponse, l.filter (candB provs)) := by
  intro l
  induction l with
  | nil => intro _; rfl
  | cons n rest ih =>
    intro h
    have hrest := ih (fun m hm => h m (List.mem_cons_of_mem _ hm))
    cases hl : provs.lookup n with
    | none =>
      rw [dispatchRun_skip_none hl, hrest, List.filter_cons, candB_none hl]
      simp
    | some pr =>
      cases ha : pr.available with
      | false =>
        rw [dispatchRun_skip_off hl ha, hrest, List.filter_cons, candB_some hl, ha]
        simp
      | true =>
        have hcand : candB provs n = true := by rw [candB_some hl, ha]
        have hs := h n (List.mem_cons_self _ _) hcand
        cases hg : pr.genBehavior prompt task_type with
        | error e =>
          rw [dispatchRun_fail_raise hl ha hg, hrest, List.filter_cons, hcand]
          simp
        | ok resp =>
          have hrs : resp.success = false := by rw [succB_ok hl hg] at hs; exact hs
          rw [dispatchRun_fail_resp hl ha hg hrs, hrest, List.filter_cons, hcand]
          simp

/-- On an order consisting only of registered available candidates, if the
candidate at position i succeeds and no earlier candidate succeeds, the
loop returns that response and invokes exactly the first i + 1 candidates. -/
theorem dispatchRun_first_success (provs : List (String × Provider)) (prompt : String)
    (task_type : TaskType) :
    ∀ (l : List String) (i : Nat) (name : String) (pr : Provider) (r : ModelResponse),
      (∀ n ∈ l, candB provs n = true) →
      l[i]? = some name →
      (∀ n ∈ l.take i, succB provs prompt task_type n = false) →
      provs.lookup name = some pr →
      pr.genBehavior prompt task_type = Except.ok r →
      r.success = true →
      dispatchRun provs prompt task_type l = (r, l.take (i + 1)) := by
  intro l
  induction l with
  | nil => intro i name pr r _ hi; simp at hi
  | cons m rest ih =>
    intro i name pr r hcand hi hpre hl hg hs
    cases i with
    | zero =>
      have hm : m = name := by simpa using hi
      subst hm
      have ha : pr.available = true := by
        have := hcand m (List.mem_cons_self _ _)
        rw [candB_some hl] at this
        exact this
      rw [dispatchRun_hit hl ha hg hs]
      simp
    | succ j =>
      have hcm : candB provs m = true := hcand m (List.mem_cons_self _ _)
      have hsm : succB provs prompt task_type m = false := by
        apply hpre
        rw [List.take_succ_cons]
        exact List.mem_cons_self _ _
      have hrest := ih j name pr r (fun n hn => hcand n (List.mem_cons_of_mem _ hn))
        (by simpa using hi)
        (fun n hn => hpre n (by rw [List.take_succ_cons]; exact List.mem_cons_of_mem _ hn))
        hl hg hs
      cases hlm : provs.lookup m with
      | none => rw [candB_none hlm] at hcm; exact absurd hcm (by simp)
      | some prm =>
        have ham : prm.available = true := by rw [candB_some hlm] at hcm; exact hcm
        cases hgm : prm.genBehavior prompt task_type with
        | error e =>
          rw [dispatchRun_fail_raise hlm ham hgm, hrest]
          simp
        | ok respm =>
          have hrs : respm.success = false := by
            rw [succB_ok hlm hgm] at hsm; exact hsm
          rw [dispatchRun_fail_resp hlm ham hgm hrs, hrest]
          simp

/-- Every response the dispatch loop can return is well formed, provided
every registered provider only ever returns well-formed responses. -/
theorem dispatchRun_wf (provs : List (String × Provider)) (prompt : String)
    (task_type : TaskType)
    (h : ∀ x ∈ provs, ∀ (q : String) (t : TaskType) (r : ModelResponse),
      x.2.genBehavior q t = Except.ok r → wfResponse r) :
    ∀ l : List String, wfResponse (dispatchRun provs prompt task_type l).1 := by
  intro l
  induction l with
  | nil =>
    constructor
    · intro _; constructor
      · rfl
      · simp [dispatchRun, exhaustedResponse]
    · intro hs; simp [dispatchRun, exhaustedResponse] at hs
  | cons n rest ih =>
    cases hl : provs.lookup n with
    | none => rw [dispatchRun_skip_none hl]; exact ih
    | some pr =>
      cases ha : pr.available with
      | false => rw [dispatchRun_skip_off hl ha]; exact ih
      | true =>
        cases hg : pr.genBehavior prompt task_type with
        | error e => rw [dispatchRun_fail_raise hl ha hg]; exact ih
        | ok resp =>
          cases hs : resp.success with
          | false => rw [dispatchRun_fail_resp hl ha hg hs]; exact ih
          | true =>
            rw [dispatchRun_hit hl ha hg hs]
            exact h (n, pr) (lookup_mem hl) prompt task_type resp hg

/-- Cleanup releases the transport handle at most once. -/
theorem cleanup_le_one (p : Provider) : (Provider.cleanup p).2 ≤ 1 := by
  unfold Provider.cleanup
  split
  · split
    · exact Nat.le_refl 1
    · exact Nat.zero_le 1
  · exact Nat.zero_le 1

/-- Cleanup of an already cleaned provider releases nothing and leaves the
state unchanged. -/
theorem cleanup_cleanup (p : Provider) :
    (Provider.cleanup (Provider.cleanup p).1).2 = 0 ∧
    (Provider.cleanup (Provider.cleanup p).1).1 = (Provider.cleanup p).1 := by
  unfold Provider.cleanup
  by_cases h1 : p.hasSession
  · by_cases h2 : p.sessionOpen
    · simp [h1, h2]
    · simp [h1, h2]
  · simp [h1]

/-- Characterisation of the health-check loop when no available provider
has a raising probe: it returns the count of providers that are both
sticky-available and probe true, one entry per provider pairing the sticky
flag with the live result (false without probing when unavailable), probes
exactly the sticky-available providers in registry order, and leaves the
registry unchanged. -/
theorem healthCheckAux_ok :
    ∀ l : List (String × Provider),
      (∀ x ∈ l, x.2.available = true → exOk x.2.testConnBehavior = true) →
      healthCheckAux l =
        (Except.ok (l.countP (fun x => x.2.available && probeTrue x.2),
          l.map (fun x => (x.1, x.2.available, x.2.available && probeTrue x.2))),
         (l.filter (fun x => x.2.available)).map (fun x => x.1),
         l) := by
  intro l
  induction l with
  | nil => intro _; rfl
  | cons x rest ih =>
    intro h
    obtain ⟨n, pr⟩ := x
    have hrest := ih (fun y hy => h y (List.mem_cons_of_mem _ hy))
    cases ha : pr.available with
    | false =>
      simp [healthCheckAux, ha, hrest, List.countP_cons, List.filter_cons]
    | true =>
      have hok := h (n, pr) (List.mem_cons_self _ _) ha
      cases hb : pr.testConnBehavior with
      | error e => rw [hb] at hok; exact absurd hok (by simp [exOk])
      | ok b =>
        simp [healthCheckAux, Provider.test_connection, ha, hb, hrest,
          List.countP_cons, List.filter_cons, probeTrue]
        cases b <;> simp [Nat.add_comm]

/-- Health-check loop threads the provider registry through unchanged. -/
theorem healthCheckAux_state : ∀ l : List (String × Provider),
    (healthCheckAux l).2.2 = l := by
  intro l
  induction l with
  | nil => rfl
  | cons x rest ih =>
    obtain ⟨n, pr⟩ := x
    cases ha : pr.available with
    | false => simp [healthCheckAux, ha, ih]
    | true =>
      cases hb : pr.testConnBehavior with
      | error e => simp [healthCheckAux, Provider.test_connection, ha, hb]
      | ok b => simp [healthCheckAux, Provider.test_connection, ha, hb, ih]

/-- Connectivity-check loop threads the provider registry through
unchanged. -/
theorem checkConnAux_state : ∀ l : List (String × Provider),
    (checkConnAux l).2 = l := by
  intro l
  induction l with
  | nil => rfl
  | cons x rest ih =>
    obtain ⟨n, pr⟩ := x
    simp [checkConnAux, Provider.test_connection, ih]

/-- C1: for every task category, the adapters that generate_response may
invoke are exactly the routing-table order for that category (the default
order for an unmapped category, which the dict lookup with default
embodies in routingOrder), filtered to registered names with sticky
availability true, order preserved: the invocation trace is always an
initial segment of that effective order, and when no candidate succeeds it
is the whole effective order. -/
theorem effective_dispatch_order (pl : MultiModelPipeline) (prompt : String)
    (task_type : TaskType) :
    (∃ k, (pl.generate_response prompt task_type).2 = (effectiveOrder pl task_type).take k) ∧
    ((∀ n ∈ effectiveOrder pl task_type, succB pl.providers prompt task_type n = false) →
      (pl.generate_response prompt task_type).2 = effectiveOrder pl task_type) := by
  constructor
  · obtain ⟨k, hk⟩ :=
      dispatchRun_trace_take pl.providers prompt task_type (routingOrder task_type)
    exact ⟨k, hk⟩
  · intro h
    have hall : ∀ n ∈ routingOrder task_type,
        candB pl.providers n = true → succB pl.providers prompt task_type n = false := by
      intro n hn hc
      exact h n (List.mem_filter.mpr ⟨hn, hc⟩)
    have := dispatchRun_allfail pl.providers prompt task_type (routingOrder task_type) hall
    unfold MultiModelPipeline.generate_response effectiveOrder
    rw [this]

/-- Witness for effective_dispatch_order at a concrete pipeline whose only
candidate fails: the trace equals the whole effective order. -/
theorem effective_dispatch_order_witness :
    (plFail.generate_response "p" TaskType.GENERAL).2 = effectiveOrder plFail TaskType.GENERAL :=
  (effective_dispatch_order plFail "p" TaskType.GENERAL).2 (by decide)

/-- C2: if the candidate at position i of the effective dispatch order is
invoked and returns a successful response (equivalently, it succeeds and
no earlier candidate does), that response is returned and the invocation
trace stops at position i: exactly the first i + 1 candidates are invoked
and no candidate at a later position is. -/
theorem first_success_short_circuit (pl : MultiModelPipeline) (prompt : String)
    (task_type : TaskType) (i : Nat) (name : String) (pr : Provider) (r : ModelResponse)
    (h1 : (effectiveOrder pl task_type)[i]? = some name)
    (h2 : pl.providers.lookup name = some pr)
    (h3 : pr.genBehavior prompt task_type = Except.ok r)
    (h4 : r.success = true)
    (h5 : ∀ n ∈ (effectiveOrder pl task_type).take i,
      succB pl.providers prompt task_type n = false) :
    (pl.generate_response prompt task_type).1 = r ∧
    (pl.generate_response prompt task_type).2 = (effectiveOrder pl task_type).take (i + 1) := by
  have hcand : ∀ n ∈ effectiveOrder pl task_type, candB pl.providers n = true :=
    fun n hn => List.of_mem_filter hn
  have hmain := dispatchRun_first_success pl.providers prompt task_type
    (effectiveOrder pl task_type) i name pr r hcand h1 h5 h2 h3 h4
  have hgen : pl.generate_response prompt task_type =
      dispatchRun pl.providers prompt task_type (effectiveOrder pl task_type) := by
    unfold MultiModelPipeline.generate_response effectiveOrder
    exact dispatchRun_filter pl.providers prompt task_type (routingOrder task_type)
  rw [hgen, hmain]
  exact ⟨rfl, rfl⟩

/-- Witness for first_success_short_circuit: in a pipeline where the first
candidate fails and the second succeeds, the second response is returned
and the trace is the first two candidates. -/
theorem first_success_short_circuit_witness :
    (plTwo.generate_response "p" TaskType.GENERAL).1 = okResp ∧
    (plTwo.generate_response "p" TaskType.GENERAL).2 =
      (effectiveOrder plTwo TaskType.GENERAL).take 2 :=
  first_success_short_circuit plTwo "p" TaskType.GENERAL 1 "openrouter" okProvider okResp
    (by decide) rfl rfl rfl (by decide)

/-- C3 counterexample: with no providers registered, every field of the
synthetic exhaustion response matches the claim except the error text,
which the source spells with a capital A: it is
"All providers failed or unavailable", not
"all providers failed or unavailable". -/
theorem exhaustion_message_counterexample :
    (MultiModelPipeline.generate_response ⟨[]⟩ "p" TaskType.GENERAL).1.success = false ∧
    (MultiModelPipeline.generate_response ⟨[]⟩ "p" TaskType.GENERAL).1.provider = "none" ∧
    (MultiModelPipeline.generate_response ⟨[]⟩ "p" TaskType.GENERAL).1.model_used = "none" ∧
    (MultiModelPipeline.generate_response ⟨[]⟩ "p" TaskType.GENERAL).1.content = "" ∧
    (MultiModelPipeline.generate_response ⟨[]⟩ "p" TaskType.GENERAL).1.error =
      some "All providers failed or unavailable" ∧
    (MultiModelPipeline.generate_response ⟨[]⟩ "p" TaskType.GENERAL).1.error ≠
      some "all providers failed or unavailable" := by
  refine ⟨rfl, rfl, rfl, rfl, rfl, ?_⟩
  decide

/-- C3 as amended: if every candidate in the effective order fails (or the
order is empty), generate_response returns the synthetic failure response
with success false, provider "none", model_used "none", content "", and
error "All providers failed or unavailable" (capital A). -/
theorem exhaustion_response_amended (pl : MultiModelPipeline) (prompt : String)
    (task_type : TaskType)
    (h : ∀ n ∈ effectiveOrder pl task_type, succB pl.providers prompt task_type n = false) :
    (pl.generate_response prompt task_type).1 = exhaustedResponse := by
  have hall : ∀ n ∈ routingOrder task_type,
      candB pl.providers n = true → succB pl.providers prompt task_type n = false := by
    intro n hn hc
    exact h n (List.mem_filter.mpr ⟨hn, hc⟩)
  have := dispatchRun_allfail pl.providers prompt task_type (routingOrder task_type) hall
  unfold MultiModelPipeline.generate_response
  rw [this]

/-- Witness for exhaustion_response_amended at a concrete pipeline whose
only candidate fails. -/
theorem exhaustion_response_amended_witness :
    (plFail.generate_response "p" TaskType.GENERAL).1 = exhaustedResponse :=
  exhaustion_response_amended plFail "p" TaskType.GENERAL (by decide)

/-- C4: a registered available adapter whose generate_response raises does
not make the dispatch fault: the loop (dispatchRun, which is definitionally
the loop generate_response runs on the resolved routing order) records the
adapter as invoked, treats it as failed, and proceeds with the remaining
candidates, returning whatever they produce. -/
theorem adapter_fault_containment (provs : List (String × Provider)) (prompt : String)
    (task_type : TaskType) (n : String) (rest : List String) (pr : Provider) (e : String)
    (h1 : provs.lookup n = some pr) (h2 : pr.available = true)
    (h3 : pr.genBehavior prompt task_type = Except.error e) :
    dispatchRun provs prompt task_type (n :: rest) =
      ((dispatchRun provs prompt task_type rest).1,
        n :: (dispatchRun provs prompt task_type rest).2) ∧
    ∀ pl : MultiModelPipeline,
      pl.generate_response prompt task_type =
        dispatchRun pl.providers prompt task_type (routingOrder task_type) :=
  ⟨dispatchRun_fail_raise h1 h2 h3, fun _ => rfl⟩

/-- Witness for adapter_fault_containment: a concrete registry whose single
provider raises; dispatch continues past it. -/
theorem adapter_fault_containment_witness :
    (dispatchRun provsRaise "p" TaskType.GENERAL ["groq", "openrouter"] =
      ((dispatchRun provsRaise "p" TaskType.GENERAL ["openrouter"]).1,
        "groq" :: (dispatchRun provsRaise "p" TaskType.GENERAL ["openrouter"]).2)) ∧
    plOk.generate_response "p" TaskType.GENERAL =
      dispatchRun plOk.providers "p" TaskType.GENERAL (routingOrder TaskType.GENERAL) :=
  ⟨(adapter_fault_containment provsRaise "p" TaskType.GENERAL "groq" ["openrouter"]
      raisingProvider "gen fault" rfl rfl rfl).1,
   (adapter_fault_containment provsRaise "p" TaskType.GENERAL "groq" ["openrouter"]
      raisingProvider "gen fault" rfl rfl rfl).2 plOk⟩

/-- C5: every response produced by the four concrete adapters, over every
configuration, prompt, task type and network outcome, satisfies the
well-formedness invariant (failure implies empty content and a non-null
error; success implies a null error); and the pipeline generate_response
preserves the invariant whenever every registered provider does. -/
theorem response_wellformedness :
    (∀ (cfg : GroqConfig) (prompt : String) (task_type : TaskType) (net : NetOutcome),
      wfResponse (groq_generate_response cfg prompt task_type net).1) ∧
    (∀ (cfg : MistralConfig) (prompt : String) (task_type : TaskType) (net : NetOutcome),
      wfResponse (mistral_generate_response cfg prompt task_type net).1) ∧
    (∀ (cfg : OpenRouterConfig) (prompt : String) (task_type : TaskType) (net : NetOutcome),
      wfResponse (openrouter_generate_response cfg prompt task_type net).1) ∧
    (∀ (cfg : HuggingFaceConfig) (prompt : String) (task_type : TaskType),
      wfResponse (huggingface_generate_response cfg prompt task_type).1) ∧
    (∀ (pl : MultiModelPipeline) (prompt : String) (task_type : TaskType),
      (∀ x ∈ pl.providers, ∀ (q : String) (t : TaskType) (r : ModelResponse),
        x.2.genBehavior q t = Except.ok r → wfResponse r) →
      wfResponse (pl.generate_response prompt task_type).1) := by
  refine ⟨?_, ?_, ?_, ?_, ?_⟩
  · intro cfg prompt task_type net
    cases net <;> simp [groq_generate_response, wfResponse]
  · intro cfg prompt task_type net
    by_cases h : task_type = TaskType.CODE_ANALYSIS ∨ task_type = TaskType.CODE_GENERATION
    · cases net <;> simp [mistral_generate_response, wfResponse, h]
    · simp [mistral_generate_response, wfResponse, h]
  · intro cfg prompt task_type net
    cases net <;> simp [openrouter_generate_response, wfResponse]
  · intro cfg prompt task_type
    by_cases h : task_type = TaskType.WEB_AUTOMATION
    · simp [huggingface_generate_response, wfResponse, h]
    · simp [huggingface_generate_response, wfResponse, h]
  · intro pl prompt task_type h
    exact dispatchRun_wf pl.providers prompt task_type h (routingOrder task_type)

/-- Witness for response_wellformedness: the pipeline clause applied to a
concrete pipeline whose only provider returns a well-formed response. -/
theorem response_wellformedness_witness :
    wfResponse (plOk.generate_response "p" TaskType.GENERAL).1 :=
  response_wellformedness.2.2.2.2 plOk "p" TaskType.GENERAL (by
    intro x hx q t r hr
    have hx2 : x = ("groq", okProvider) := by simpa [plOk] using hx
    subst hx2
    have hr2 : okResp = r := by simpa [okProvider] using hr
    rw [← hr2]
    simp [wfResponse, okResp])

/-- C6 counterexample: health_check contains no exception handling, so a
provider whose test_connection probe raises makes the whole call raise:
the fault propagates to the caller instead of being recorded as that
provider being unhealthy. -/
theorem health_check_probe_fault_counterexample :
    (plProbeRaise.health_check).1 = Except.error "probe fault" ∧
    exOk (plProbeRaise.health_check).1 = false :=
  ⟨rfl, rfl⟩

/-- C6 as amended: health_check never raises provided no sticky-available
registered adapter has a raising test_connection probe; this holds for the
four concrete providers, whose probe bodies catch all internal faults and
return a boolean, but health_check itself would propagate a raising probe
(see the counterexample). -/
theorem health_check_no_raise_amended (pl : MultiModelPipeline)
    (h : ∀ x ∈ pl.providers, x.2.available = true → exOk x.2.testConnBehavior = true) :
    exOk (pl.health_check).1 = true := by
  have hh := healthCheckAux_ok pl.providers h
  unfold MultiModelPipeline.health_check
  rw [hh]
  rfl

/-- Witness for health_check_no_raise_amended at a concrete pipeline with
one healthy available provider and one unavailable provider. -/
theorem health_check_no_raise_amended_witness :
    exOk (plHealth.health_check).1 = true :=
  health_check_no_raise_amended plHealth (by decide)

/-- C7: sticky availability is never revised after initialisation:
test_connection returns the provider state unchanged, and both
health_check and check_api_connectivity return the pipeline state
unchanged (in particular every available flag is untouched); only
initialise writes the flag. -/
theorem sticky_availability_frame :
    (∀ p : Provider, (Provider.test_connection p).2 = p) ∧
    (∀ pl : MultiModelPipeline, (pl.health_check).2.2 = pl) ∧
    (∀ pl : MultiModelPipeline, (pl.check_api_connectivity).2 = pl) := by
  refine ⟨fun p => rfl, ?_, ?_⟩
  · intro pl
    unfold MultiModelPipeline.health_check
    rcases hh : healthCheckAux pl.providers with ⟨res, probed, ps⟩
    have hst : ps = pl.providers := by
      have := healthCheckAux_state pl.providers
      rw [hh] at this
      exact this
    cases res with
    | ok cp =>
      obtain ⟨c, es⟩ := cp
      simp [hst]
    | error e => simp [hst]
  · intro pl
    unfold MultiModelPipeline.check_api_connectivity
    rw [checkConnAux_state]

/-- C8: an adapter asked to serve a category it does not handle returns a
failure response carrying an unsupported-category error, performs no
backend call (call count 0), and raises nothing: MistralCodestralProvider
for every category other than CODE_ANALYSIS and CODE_GENERATION, and
HuggingFaceProvider for every category other than WEB_AUTOMATION. -/
theorem unsupported_category_fault :
    (∀ (cfg : MistralConfig) (prompt : String) (task_type : TaskType) (net : NetOutcome),
      task_type ≠ TaskType.CODE_ANALYSIS → task_type ≠ TaskType.CODE_GENERATION →
      mistral_generate_response cfg prompt task_type net =
        ({ content := "", model_used := cfg.model, provider := "mistral_codestral",
           execution_time := 0, tokens_used := 0, confidence := 0, success := false,
           error := some "Task type not supported by Codestral" }, 0)) ∧
    (∀ (cfg : HuggingFaceConfig) (prompt : String) (task_type : TaskType),
      task_type ≠ TaskType.WEB_AUTOMATION →
      huggingface_generate_response cfg prompt task_type =
        ({ content := "", model_used := "N/A", provider := "huggingface",
           execution_time := 0, tokens_used := 0, confidence := 0, success := false,
           error := some "Task type not supported by HuggingFace provider" }, 0)) := by
  constructor
  · intro cfg prompt task_type net h1 h2
    have hne : ¬(task_type = TaskType.CODE_ANALYSIS ∨ task_type = TaskType.CODE_GENERATION) := by
      intro hor
      cases hor with
      | inl h => exact h1 h
      | inr h => exact h2 h
    simp [mistral_generate_response, hne]
  · intro cfg prompt task_type h
    simp [huggingface_generate_response, h]

/-- Witness configuration for the Codestral adapter. -/
def mCfg : MistralConfig :=
  { api_key := "k", endpoint := "e", model := "codestral", max_tokens := 100 }

/-- Witness configuration for the HuggingFace adapter. -/
def hCfg : HuggingFaceConfig :=
  { api_key := "k", endpoint := "e", models_browser_use := "b", models_embeddings := "emb" }

/-- Witness for unsupported_category_fault at the GENERAL category. -/
theorem unsupported_category_fault_witness :
    mistral_generate_response mCfg "p" TaskType.GENERAL (NetOutcome.ok "c" 1) =
      ({ content := "", model_used := mCfg.model, provider := "mistral_codestral",
         execution_time := 0, tokens_used := 0, confidence := 0, success := false,
         error := some "Task type not supported by Codestral" }, 0) ∧
    huggingface_generate_response hCfg "p" TaskType.GENERAL =
      ({ content := "", model_used := "N/A", provider := "huggingface",
         execution_time := 0, tokens_used := 0, confidence := 0, success := false,
         error := some "Task type not supported by HuggingFace provider" }, 0) :=
  ⟨unsupported_category_fault.1 mCfg "p" TaskType.GENERAL (NetOutcome.ok "c" 1)
      (by decide) (by decide),
   unsupported_category_fault.2 hCfg "p" TaskType.GENERAL (by decide)⟩

/-- Pointwise idempotence of per-provider cleanup lifted to the registry
map performed by shutdown. -/
theorem map_cleanup_idem : ∀ l : List (String × Provider),
    (l.map (fun x => (x.1, (Provider.cleanup x.2).1))).map
        (fun x => (x.1, (Provider.cleanup x.2).1)) =
      l.map (fun x => (x.1, (Provider.cleanup x.2).1)) := by
  intro l
  induction l with
  | nil => rfl
  | cons x rest ih => simp [ih, (cleanup_cleanup x.2).2]

/-- C9: shutdown is idempotent: one invocation releases each transport
handle at most once, a second invocation releases nothing and leaves the
pipeline state fixed, and per-provider cleanup may be called twice without
fault (the model of cleanup is total and a second call is a no-op). -/
theorem shutdown_idempotent :
    ∀ pl : MultiModelPipeline,
      ((pl.shutdown).2.all fun c => decide (c ≤ 1)) = true ∧
      (((pl.shutdown).1.shutdown).2.all fun c => decide (c = 0)) = true ∧
      ((pl.shutdown).1.shutdown).1 = (pl.shutdown).1 ∧
      ∀ p : Provider, (Provider.cleanup (Provider.cleanup p).1).2 = 0 := by
  intro pl
  refine ⟨?_, ?_, ?_, fun p => (cleanup_cleanup p).1⟩
  · rw [List.all_eq_true]
    intro c hc
    simp only [MultiModelPipeline.shutdown] at hc
    obtain ⟨x, hx, hxc⟩ := List.mem_map.mp hc
    rw [← hxc]
    exact decide_eq_true (cleanup_le_one x.2)
  · rw [List.all_eq_true]
    intro c hc
    simp only [MultiModelPipeline.shutdown, List.map_map] at hc
    obtain ⟨x, hx, hxc⟩ := List.mem_map.mp hc
    rw [← hxc]
    exact decide_eq_true (by simpa using (cleanup_cleanup x.2).1)
  · simp only [MultiModelPipeline.shutdown]
    exact congrArg MultiModelPipeline.mk (map_cleanup_idem pl.providers)

/-- C10: when no available probe raises, the available_providers count of
health_check is exactly the number of registered adapters that are both
sticky-available and whose live probe returns true in this call; the
per-provider report pairs the sticky flag with the live result, an
unavailable adapter being reported healthy false; and the probe trace is
exactly the sticky-available adapters, so unavailable adapters are never
probed. -/
theorem health_check_available_count (pl : MultiModelPipeline)
    (h : ∀ x ∈ pl.providers, x.2.available = true → exOk x.2.testConnBehavior = true) :
    (pl.health_check).1 =
      Except.ok
        { total_providers := pl.providers.length,
          available_providers :=
            pl.providers.countP (fun x => x.2.available && probeTrue x.2),
          providers :=
            pl.providers.map
              (fun x => (x.1, x.2.available, x.2.available && probeTrue x.2)) } ∧
    (pl.health_check).2.1 =
      (pl.providers.filter (fun x => x.2.available)).map (fun x => x.1) := by
  have hh := healthCheckAux_ok pl.providers h
  unfold MultiModelPipeline.health_check
  rw [hh]
  exact ⟨rfl, rfl⟩

/-- Witness for health_check_available_count at a concrete pipeline with
one healthy available provider and one unavailable provider. -/
theorem health_check_available_count_witness :
    (plHealth.health_check).1 =
      Except.ok
        { total_providers := plHealth.providers.length,
          available_providers :=
            plHealth.providers.countP (fun x => x.2.available && probeTrue x.2),
          providers :=
            plHealth.providers.map
              (fun x => (x.1, x.2.available, x.2.available && probeTrue x.2)) } ∧
    (plHealth.health_check).2.1 =
      (plHealth.providers.filter (fun x => x.2.available)).map (fun x => x.1) :=
  health_check_available_count plHealth (by decide)
